import Mathlib

/-!
Verification of the `ire` I2P router core (data model and NTCP2 handshake)
against its natural-language specification.

The Rust source is shallowly embedded: `u8` bytes become `Nat` (kept < 256
where it matters), byte buffers become `List Nat`, fallible operations
return `Option`/`Except`, and a Rust panic is modelled as the `none` case
of an outer `Option` layer.  Code living outside the provided sources
(the `frame` wire codec, the `crypto` collaborator, the Rust standard
library and the `snow` Noise library) is modelled from the specification
and marked as such in its doc comment.
-/

namespace Ire

/-! ## Hash (src/data/mod.rs, `Hash`) -/

/-- The SHA-256 hash of some data: 32 raw bytes, embedded as a list of
byte values. -/
structure Hash where
  data : List Nat
deriving Repr, DecidableEq

/-- In-place XOR of two hashes (`Hash::xor`): byte-wise XOR of the 32-byte
arrays.  The Rust loop `self.0[i] ^= other.0[i]` for `i in 0..32` is the
pointwise XOR of the two byte arrays. -/
def Hash.xor (a b : Hash) : Hash :=
  ⟨List.zipWith Nat.xor a.data b.data⟩

/-- The all-zero hash of 32 bytes. -/
def Hash.zero : Hash := ⟨List.replicate 32 0⟩

/-! ## I2PDate (src/data/mod.rs, `I2PDate`) -/

/-- Milliseconds since the Unix epoch; 0 denotes the null/undefined date. -/
structure I2PDate where
  ms : Nat
deriving Repr, DecidableEq

/-- `I2PDate::from_system_time`.  A `SystemTime` is embedded as the signed
number of nanoseconds since the Unix epoch.  `duration_since(UNIX_EPOCH)`
fails for times before the epoch, and `unwrap_or(Duration::new(0, 0))`
replaces that failure with the zero duration; then the code computes
`d.as_secs() * 1_000 + d.subsec_nanos() / 1_000_000`. -/
def I2PDate.from_system_time (t : Int) : I2PDate :=
  let d : Nat := if t < 0 then 0 else t.toNat
  ⟨(d / 1000000000) * 1000 + (d % 1000000000) / 1000000⟩

/-! ## I2PString and Mapping (src/data/mod.rs) -/

/-- A UTF-8 string (`I2PString`), embedded as a Lean `String`. -/
structure I2PString where
  s : String
deriving Repr, DecidableEq

/-- `I2PString::to_csv`: split on commas, each piece again an `I2PString`. -/
def I2PString.to_csv (x : I2PString) : List I2PString :=
  (x.s.splitOn ",").map I2PString.mk

/-- A set of key/value pairs (`Mapping`).  The Rust `HashMap` is embedded
as an association list; `get` is the first matching key. -/
structure Mapping where
  pairs : List (String × String)
deriving Repr, DecidableEq

/-- `HashMap::get` on the embedded mapping. -/
def Mapping.get (m : Mapping) (k : String) : Option String :=
  (m.pairs.find? (fun p => p.1 == k)).map (fun p => p.2)

/-! ## Certificate (src/data/mod.rs, `Certificate` / `KeyCertificate`) -/

/-- A key certificate: signature/encryption type tags plus excess key
data.  The type tags are embedded as their u16 wire values. -/
structure KeyCertificate where
  sig_type : Nat
  enc_type : Nat
  sig_data : List Nat
  enc_data : List Nat
deriving Repr, DecidableEq

/-- `Certificate`: tagged union of the six certificate variants. -/
inductive Certificate where
  | Null : Certificate
  | HashCash : List Nat → Certificate
  | Hidden : Certificate
  | Signed : List Nat → Certificate
  | Multiple : List Nat → Certificate
  | Key : KeyCertificate → Certificate
deriving Repr, DecidableEq

/-- Outcome of a nom-style parser: success, `Err::Incomplete` (more bytes
needed, retryable) or `Err::Error`/`Err::Failure` (malformed, fatal). -/
inductive ParseResult (α : Type) where
  | done : α → ParseResult α
  | incomplete : ParseResult α
  | failed : ParseResult α
deriving Repr, DecidableEq

/-- Modelled from the spec: the `frame::certificate` parser (the `frame`
module is not among the provided sources).  Wire form: u8 type code, u16
(big-endian) payload length, payload.  Type codes Null=0, HashCash=1,
Hidden=2, Signed=3, Multiple=4, Key=5; an unrecognized type code is a
`ParseError` (malformed); missing bytes are `Incomplete`.  A Key payload
is (u16 sig_type, u16 enc_type, remaining key data); a Key payload too
short for its two type tags is malformed. -/
def certificate (buf : List Nat) : ParseResult Certificate :=
  match buf with
  | [] => .incomplete
  | [_] => .incomplete
  | [_, _] => .incomplete
  | code :: l1 :: l2 :: rest =>
    let len := l1 * 256 + l2
    if rest.length < len then .incomplete
    else
      let payload := rest.take len
      match code with
      | 0 => .done .Null
      | 1 => .done (.HashCash payload)
      | 2 => .done .Hidden
      | 3 => .done (.Signed payload)
      | 4 => .done (.Multiple payload)
      | 5 =>
        match payload with
        | s1 :: s2 :: e1 :: e2 :: keyData =>
          .done (.Key ⟨s1 * 256 + s2, e1 * 256 + e2, keyData, []⟩)
        | _ => .failed
      | _ => .failed

/-- `Certificate::from`: wraps the frame parser.  `Ok` yields
`Some(cert)`, `Err::Incomplete` yields `None`, and `Err::Error` /
`Err::Failure` executes `panic!("Unsupported Certificate")`.  The panic is
modelled as the outer `none`; a returned value is `some`. -/
def Certificate.fromBuf (buf : List Nat) : Option (Option Certificate) :=
  match certificate buf with
  | .done c => some (some c)
  | .incomplete => some none
  | .failed => none

/-! ## Identity model (src/data/mod.rs, `RouterIdentity`, `RouterInfo`) -/

/-- A signature, embedded as raw bytes. -/
structure Signature where
  data : List Nat
deriving Repr, DecidableEq

/-- `RouterIdentity`: encryption public key, optional padding, signing
public key, certificate.  The key types live in the external `crypto`
collaborator, so their contents are embedded as raw bytes. -/
structure RouterIdentity where
  public_key : List Nat
  padding : Option (List Nat)
  signing_key : List Nat
  certificate : Certificate
deriving Repr, DecidableEq

/-- An IP address as produced by the Rust standard library's `IpAddr`
parser: either four IPv4 octets or an IPv6 address (whose segments are
irrelevant to this development beyond not being IPv4). -/
inductive IpAddr where
  | v4 : Nat → Nat → Nat → Nat → IpAddr
  | v6 : List Nat → IpAddr
deriving Repr, DecidableEq

/-- `IpAddr::is_ipv4`. -/
def IpAddr.is_ipv4 : IpAddr → Bool
  | .v4 _ _ _ _ => true
  | .v6 _ => false

/-- `SocketAddr`: an IP address plus a port. -/
structure SocketAddr where
  ip : IpAddr
  port : Nat
deriving Repr, DecidableEq

/-- Modelled from the spec: the Rust standard library's IPv4
dotted-decimal literal parser (`"host"` options in this development are
IPv4 literals; the host is "string form of an IPv4 or IPv6 literal").
Used as a concrete instantiation of the `parseIp` parameter below. -/
def parseIpv4 (s : String) : Option IpAddr :=
  match (s.splitOn ".").mapM String.toNat? with
  | some [a, b, c, d] =>
    if a < 256 && b < 256 && c < 256 && d < 256 then some (.v4 a b c d) else none
  | _ => none

/-- Modelled from the spec: the Rust standard library's `u16` decimal
parser used for the `"port"` option. -/
def parsePort (s : String) : Option Nat :=
  match s.toNat? with
  | some n => if n < 65536 then some n else none
  | none => none

/-- `RouterAddress`: cost, expiration, transport style, options. -/
structure RouterAddress where
  cost : Nat
  expiration : I2PDate
  transport_style : String
  options : Mapping
deriving Repr, DecidableEq

/-- `RouterAddress::option`: look up a key in the options mapping. -/
def RouterAddress.option (ra : RouterAddress) (key : String) : Option String :=
  ra.options.get key

/-- `RouterAddress::addr`: read the `"host"` and `"port"` options and
parse them; `None` when either option is missing or fails to parse.  The
host parser (Rust std `IpAddr::from_str`, external) is a parameter. -/
def RouterAddress.addr (parseIp : String → Option IpAddr) (ra : RouterAddress) :
    Option SocketAddr :=
  match ra.option "host", ra.option "port" with
  | some host, some port =>
    match parseIp host, parsePort port with
    | some ip, some p => some ⟨ip, p⟩
    | _, _ => none
  | _, _ => none

/-- `RouterInfo`: identity, publication date, addresses, peers, options
and an optional signature. -/
structure RouterInfo where
  router_id : RouterIdentity
  published : I2PDate
  addresses : List RouterAddress
  peers : List Hash
  options : Mapping
  signature : Option Signature
deriving Repr, DecidableEq

/-- `RouterInfo::set_addresses`: replace the address list and clear the
signature (the caller must re-sign). -/
def RouterInfo.set_addresses (ri : RouterInfo) (addrs : List RouterAddress) :
    RouterInfo :=
  { ri with addresses := addrs, signature := none }

/-- Errors of the external `crypto` collaborator that `RouterInfo::verify`
surfaces (`crypto::Error::NoSignature` is the spec's `MissingSignature`). -/
inductive CryptoError where
  | NoSignature : CryptoError
  | InvalidSignature : CryptoError
deriving Repr, DecidableEq

/-- `RouterInfo::verify`: with no signature, fail `NoSignature`
(`MissingSignature`); otherwise recompute the serialization minus the
signature and check it under the identity's signing key.  Both the
serializer (`frame::gen_router_info_minus_sig`) and the signature check
live outside the provided sources, so the check is a parameter
`verifyFn`. -/
def RouterInfo.verify (verifyFn : RouterInfo → Signature → Bool)
    (ri : RouterInfo) : Except CryptoError Unit :=
  match ri.signature with
  | some s => if verifyFn ri s then .ok () else .error .InvalidSignature
  | none => .error .NoSignature

/-- The element-by-element evaluation of the iterator chain inside
`RouterInfo::address`: keep addresses whose `transport_style` equals
`style`, call `.addr().unwrap().is_ipv4()` on each of those (`unwrap` on
a `None` address panics — modelled as the outer `none`), then apply the
caller's filter, and collect the survivors. -/
def addressCollect (parseIp : String → Option IpAddr) (style : String)
    (filter : RouterAddress → Bool) :
    List RouterAddress → Option (List RouterAddress)
  | [] => some []
  | a :: rest =>
    if a.transport_style == style then
      match a.addr parseIp with
      | none => none
      | some sa =>
        if sa.ip.is_ipv4 && filter a then
          (addressCollect parseIp style filter rest).map (a :: ·)
        else
          addressCollect parseIp style filter rest
    else
      addressCollect parseIp style filter rest

/-- `RouterInfo::address`: collect the matching addresses and return the
first, or `None` (here `some none`) when the collection is empty.  The
outer `none` is the panic raised by `.addr().unwrap()` on an address of
the requested style whose host/port do not parse. -/
def RouterInfo.address (parseIp : String → Option IpAddr) (ri : RouterInfo)
    (style : String) (filter : RouterAddress → Bool) :
    Option (Option RouterAddress) :=
  (addressCollect parseIp style filter ri.addresses).map List.head?

/-! ## NTCP2 constants (src/transport/ntcp2/handshake/mod.rs and, for the
values defined in the missing `transport/ntcp2/mod.rs`, the spec §4.3/§6) -/

def SESSION_REQUEST_PT_LEN : Nat := 16

def SESSION_REQUEST_CT_LEN : Nat := 32 + SESSION_REQUEST_PT_LEN + 16

def SESSION_CREATED_PT_LEN : Nat := 16

def SESSION_CREATED_CT_LEN : Nat := 32 + SESSION_CREATED_PT_LEN + 16

/-- Modelled from the spec: `NTCP2_MTU`, 65535 bytes (defined in the
missing `transport/ntcp2/mod.rs`). -/
def NTCP2_MTU : Nat := 65535

/-- Modelled from the spec: `NTCP2_STYLE` = "NTCP2". -/
def NTCP2_STYLE : String := "NTCP2"

/-- Modelled from the spec: `NTCP_STYLE` = "NTCP" (fallback). -/
def NTCP_STYLE : String := "NTCP"

/-- Modelled from the spec: `NTCP2_VERSION` = "2". -/
def NTCP2_VERSION : String := "2"

/-- Modelled from the spec: the `"v"` RouterAddress option key. -/
def NTCP2_OPT_V : String := "v"

/-- Modelled from the spec: the `"s"` RouterAddress option key. -/
def NTCP2_OPT_S : String := "s"

/-- Modelled from the spec: the `"i"` RouterAddress option key. -/
def NTCP2_OPT_I : String := "i"

/-! ## Handshake frame codec (spec §4.3; the `frame` module is missing
from the provided sources) -/

/-- Modelled from the spec: `frame::session_request` parses the 16-byte
SessionRequest plaintext — u8 version, u8 padding_length, u16 (big-endian)
message3_length, u32 (big-endian) ts_a, 8 reserved bytes — returning
(version, padding_length, message3_length, ts_a). -/
def session_request (buf : List Nat) : Option (Nat × Nat × Nat × Nat) :=
  match buf with
  | v :: p :: m1 :: m2 :: t1 :: t2 :: t3 :: t4 ::
      _ :: _ :: _ :: _ :: _ :: _ :: _ :: _ :: _ =>
    some (v, p, m1 * 256 + m2, ((t1 * 256 + t2) * 256 + t3) * 256 + t4)
  | _ => none

/-! ## Inbound (responder) handshake state machine
(src/transport/ntcp2/handshake/mod.rs, `IBHandshake`) -/

/-- Handshake errors surfaced by the state machines (the source wraps
them in `io::Error` values with distinguishing messages). -/
inductive HandshakeError where
  | ParseError : HandshakeError
  | UnsupportedVersion : HandshakeError
  | MessageTooLarge : HandshakeError
  | IncompleteHandshake : HandshakeError
deriving Repr, DecidableEq

/-- The responder states (`IBHandshakeState`).  Each read state carries
the byte count its `read_exact` future was constructed with; the
`sessionRequestPadding` and later states also remember the advertised
`message3_length` (`sclen`, stored in `IBHandshake::sclen`). -/
inductive IBState where
  | sessionRequest : IBState
  | sessionRequestPadding : Nat → Nat → IBState
  | sessionCreated : Nat → IBState
  | sessionConfirmed : Nat → IBState
deriving Repr, DecidableEq

/-- Number of bytes the responder's `read_exact` future for each read
state was constructed to read: `SESSION_REQUEST_CT_LEN` for the first
message, `padlen` for the request padding, and `sclen + 48` for
SessionConfirmed (source line `vec![0u8; self.sclen + 48]`). -/
def ibReadLen : IBState → Option Nat
  | .sessionRequest => some SESSION_REQUEST_CT_LEN
  | .sessionRequestPadding padlen _ => some padlen
  | .sessionCreated _ => none
  | .sessionConfirmed sclen => some (sclen + 48)

/-- The responder's handling of a decrypted SessionRequest plaintext
(state `SessionRequest` of `IBHandshake::poll`): a parse error is fatal;
a version other than 2 fails `UnsupportedVersion`; otherwise remember
`padlen` and `sclen` and transition to reading the request padding.
An error return leaves the `SessionCreated` state unreached, so nothing
is ever written to the connection. -/
def ibStepSessionRequest (pt : List Nat) : Except HandshakeError IBState :=
  match session_request pt with
  | none => .error .ParseError
  | some (ver, padlen, sclen, _) =>
    if ver ≠ 2 then .error .UnsupportedVersion
    else .ok (.sessionRequestPadding padlen sclen)

/-! ## SessionConfirmed lengths -/

/-- The initiator's advertised `message3_length`: the SessionConfirmed
payload (serialized RouterInfo plus padding) length plus 16
(`let sc_len = sc_len + 16;`, source line 350). -/
def obScLen (payloadLen : Nat) : Nat := payloadLen + 16

/-- Modelled from the spec: the length of the ciphertext `snow` produces
for Noise message 3 (`s, se`) from a payload — the encrypted static key
block (32 + 16 MAC) plus the payload and its 16-byte MAC, i.e. payload
+ 64 ("the 48 extra bytes beyond the RouterInfo payload are the Noise
static-key block + MAC + padding MAC" together with the payload's own
16-byte MAC counted inside message3_length). -/
def noiseMessage3CtLen (payloadLen : Nat) : Nat := payloadLen + 64

/-! ## SipHash key derivation after the handshake -/

/-- Three sequential `read_u64::<LittleEndian>` calls on a cursor over a
32-byte ASK secret read bytes 0–7, 8–15 and 16–23 as little-endian
64-bit values. -/
def readU64LE (b : List Nat) (off : Nat) : Nat :=
  b.getD off 0 +
    256 * (b.getD (off + 1) 0 +
    256 * (b.getD (off + 2) 0 +
    256 * (b.getD (off + 3) 0 +
    256 * (b.getD (off + 4) 0 +
    256 * (b.getD (off + 5) 0 +
    256 * (b.getD (off + 6) 0 +
    256 * b.getD (off + 7) 0))))))

/-- The six post-handshake length-obfuscation values: SipHash keys and IV
for encryption and for decryption. -/
structure SipKeys where
  ek0 : Nat
  ek1 : Nat
  eiv : Nat
  dk0 : Nat
  dk1 : Nat
  div : Nat
deriving Repr, DecidableEq

/-- The responder's key derivation (`IBHandshake::poll`, SessionConfirmed
state): `erdr` reads from `ask1` (Bob→Alice) and `drdr` from `ask0`
(Alice→Bob), three little-endian u64s each. -/
def deriveSipKeysResponder (ask0 ask1 : List Nat) : SipKeys :=
  { ek0 := readU64LE ask1 0
    ek1 := readU64LE ask1 8
    eiv := readU64LE ask1 16
    dk0 := readU64LE ask0 0
    dk1 := readU64LE ask0 8
    div := readU64LE ask0 16 }

/-- The initiator's key derivation (`OBHandshake::poll`, SessionConfirmed
state): role-swapped — `erdr` reads from `ask0` (Alice→Bob) and `drdr`
from `ask1` (Bob→Alice). -/
def deriveSipKeysInitiator (ask0 ask1 : List Nat) : SipKeys :=
  { ek0 := readU64LE ask0 0
    ek1 := readU64LE ask0 8
    eiv := readU64LE ask0 16
    dk0 := readU64LE ask1 0
    dk1 := readU64LE ask1 8
    div := readU64LE ask1 16 }

/-! ## Outbound handshake setup (src/transport/ntcp2/handshake/mod.rs,
`OBHandshake::new`) -/

/-- The address filter closure in `OBHandshake::new`: the `"v"` option
must exist and its comma-separated values must contain `"2"`, and both
the `"s"` and `"i"` options must be present. -/
def ntcp2Filter (ra : RouterAddress) : Bool :=
  match ra.option NTCP2_OPT_V with
  | some v =>
    if !(I2PString.to_csv ⟨v⟩).contains ⟨NTCP2_VERSION⟩ then false
    else (ra.option NTCP2_OPT_S).isSome && (ra.option NTCP2_OPT_I).isSome
  | none => false

/-- The address selection in `OBHandshake::new`: try style `"NTCP2"`,
fall back to style `"NTCP"`, both with `ntcp2Filter`.  The outer `none`
is a panic inside `RouterInfo::address`. -/
def selectNtcp2Address (parseIp : String → Option IpAddr) (peer : RouterInfo) :
    Option (Option RouterAddress) :=
  match peer.address parseIp NTCP2_STYLE ntcp2Filter with
  | none => none
  | some (some ra) => some (some ra)
  | some none => peer.address parseIp NTCP_STYLE ntcp2Filter

/-- Errors returned by `OBHandshake::new` (the source returns `String`
messages; each constructor names one of them), plus `UnwrapFailed` for
the panics reachable in that function. -/
inductive OBNewError where
  | NoNtcp2Address : OBNewError
  | InvalidStaticKey : OBNewError
  | NoStaticKey : OBNewError
  | InvalidIV : OBNewError
  | NoIV : OBNewError
  | MessageTooLarge : OBNewError
  | CouldNotGenerate : OBNewError
  | UnwrapFailed : OBNewError
deriving Repr, DecidableEq

/-- The data `OBHandshake::new` computes before any byte is written: the
chosen address and endpoint, the decoded remote static key and AES
obfuscation IV, and the SessionConfirmed buffer length `sc_len`. -/
structure OBInit where
  ra : RouterAddress
  addr : SocketAddr
  remote_key : List Nat
  aesobfse_iv : List Nat
  sc_len : Nat
deriving Repr, DecidableEq

/-- `OBHandshake::new`.  Performs no I/O: it only selects an address,
decodes the `"s"` and `"i"` options (I2P base64, external — parameter
`decodeB64`), builds the SessionConfirmed payload of length
`ownRiLen + scPadlen` (serialization by the missing `frame` module;
`ownRiLen` is the own RouterInfo's serialized length, `scPadlen` the
random padding sample), failing `MessageTooLarge` when the payload
exceeds `NTCP2_MTU - 16`, and records `sc_len` = payload length + 16.
A panic (the second `.addr().unwrap()`, or `copy_from_slice` on an IV of
the wrong length) is `UnwrapFailed`. -/
def obHandshakeNew (parseIp : String → Option IpAddr)
    (decodeB64 : String → Option (List Nat)) (ownRiLen scPadlen : Nat)
    (peer : RouterInfo) : Except OBNewError OBInit :=
  match selectNtcp2Address parseIp peer with
  | none => .error .UnwrapFailed
  | some none => .error .NoNtcp2Address
  | some (some ra) =>
    match ra.addr parseIp with
    | none => .error .UnwrapFailed
    | some addr =>
      match ra.option NTCP2_OPT_S with
      | none => .error .NoStaticKey
      | some sVal =>
        match decodeB64 sVal with
        | none => .error .InvalidStaticKey
        | some remoteKey =>
          match ra.option NTCP2_OPT_I with
          | none => .error .NoIV
          | some iVal =>
            match decodeB64 iVal with
            | none => .error .InvalidIV
            | some iv =>
              if iv.length ≠ 16 then .error .UnwrapFailed
              else
                let payloadLen := ownRiLen + scPadlen
                if NTCP2_MTU - 16 < payloadLen then .error .MessageTooLarge
                else .ok ⟨ra, addr, remoteKey, iv, obScLen payloadLen⟩

/-- The address conditions that `RouterInfo::address(style, filter)`
selects on: matching transport style, a host/port pair parsing to an IPv4
endpoint, and a true filter. -/
def goodAddress (parseIp : String → Option IpAddr) (style : String)
    (filter : RouterAddress → Bool) (a : RouterAddress) : Bool :=
  (a.transport_style == style) &&
    (match a.addr parseIp with
     | some sa => sa.ip.is_ipv4
     | none => false) && filter a

/-! ## Helper lemmas -/

theorem zipWith_xor_cancel (l1 l2 : List Nat) (h : l1.length = l2.length) :
    List.zipWith Nat.xor (List.zipWith Nat.xor l1 l2) l2 = l1 := by
  induction l1 generalizing l2 with
  | nil => simp
  | cons a t ih =>
    cases l2 with
    | nil => simp at h
    | cons b t2 =>
      simp only [List.zipWith_cons_cons, List.cons.injEq]
      exact ⟨Nat.xor_cancel_right b a, ih t2 (by simpa using h)⟩

theorem zipWith_xor_self (l : List Nat) :
    List.zipWith Nat.xor l l = List.replicate l.length 0 := by
  induction l with
  | nil => rfl
  | cons a t ih =>
    have h : Nat.xor a a = 0 := Nat.xor_self a
    simp only [List.zipWith_cons_cons, List.length_cons, List.replicate_succ, h, ih]

theorem addressCollect_eq_filter (parseIp : String → Option IpAddr)
    (style : String) (f : RouterAddress → Bool) (l : List RouterAddress)
    (hnp : ∀ a ∈ l, a.transport_style = style → (a.addr parseIp).isSome) :
    addressCollect parseIp style f l = some (l.filter (goodAddress parseIp style f)) := by
  induction l with
  | nil => simp [addressCollect]
  | cons a rest ih =>
    have hrest := ih (fun x hx => hnp x (List.mem_cons_of_mem _ hx))
    by_cases hs : a.transport_style = style
    · have hsome := hnp a (List.mem_cons_self _ _) hs
      match haddr : a.addr parseIp with
      | none => simp [haddr] at hsome
      | some sa =>
        have hga : goodAddress parseIp style f a = (sa.ip.is_ipv4 && f a) := by
          simp [goodAddress, hs, haddr]
        by_cases hgood : (sa.ip.is_ipv4 && f a) = true
        · simp [addressCollect, hs, haddr, hgood, hrest, List.filter_cons, hga]
        · simp [addressCollect, hs, haddr, hgood, hrest, List.filter_cons, hga]
    · have hga : goodAddress parseIp style f a = false := by
        simp [goodAddress, hs]
      simp [addressCollect, hs, hrest, List.filter_cons, hga]

theorem RouterInfo.address_eq_filter_head (parseIp : String → Option IpAddr)
    (ri : RouterInfo) (style : String) (f : RouterAddress → Bool)
    (hnp : ∀ a ∈ ri.addresses, a.transport_style = style → (a.addr parseIp).isSome) :
    ri.address parseIp style f =
      some (ri.addresses.filter (goodAddress parseIp style f)).head? := by
  simp [RouterInfo.address, addressCollect_eq_filter parseIp style f ri.addresses hnp]

/-! ## Claims -/

/-- C9: for all 32-byte hashes `a` and `b`, XORing with `b` twice restores
`a`, and XORing a hash with itself gives the all-zero hash. -/
theorem c9_hash_xor (a b : Hash) (ha : a.data.length = 32)
    (hb : b.data.length = 32) :
    (a.xor b).xor b = a ∧ a.xor a = Hash.zero := by
  constructor
  · cases a with
    | mk la =>
      cases b with
      | mk lb =>
        simp only [Hash.xor, Hash.mk.injEq]
        exact zipWith_xor_cancel la lb (by rw [ha, hb])
  · cases a with
    | mk la =>
      simp only [Hash.xor, Hash.zero, Hash.mk.injEq]
      rw [zipWith_xor_self, ha]

/-- Witness for C9 at two concrete 32-byte hashes. -/
theorem c9_hash_xor_witness :
    (Hash.xor (Hash.xor ⟨List.replicate 32 5⟩ ⟨List.replicate 32 9⟩)
        ⟨List.replicate 32 9⟩ = ⟨List.replicate 32 5⟩) ∧
      Hash.xor ⟨List.replicate 32 5⟩ ⟨List.replicate 32 5⟩ = Hash.zero :=
  c9_hash_xor ⟨List.replicate 32 5⟩ ⟨List.replicate 32 9⟩ (by simp) (by simp)

/-- C10: `I2PDate::from_system_time` maps any time before the Unix epoch
to the null date `I2PDate(0)` instead of failing, and any time at or
after the epoch to the whole number of elapsed milliseconds. -/
theorem c10_from_system_time (t : Int) :
    (t < 0 → I2PDate.from_system_time t = ⟨0⟩) ∧
      (0 ≤ t → I2PDate.from_system_time t = ⟨t.toNat / 1000000⟩) := by
  constructor
  · intro h
    simp only [I2PDate.from_system_time, if_pos h]
  · intro h
    have hnl : ¬t < 0 := by omega
    simp only [I2PDate.from_system_time, if_neg hnl, I2PDate.mk.injEq]
    omega

/-- Witness for C10: a time 7 ns before the epoch gives the null date; a
time 2.5 s after the epoch gives its elapsed whole milliseconds. -/
theorem c10_from_system_time_witness :
    I2PDate.from_system_time (-7) = ⟨0⟩ ∧
      I2PDate.from_system_time 2500000000 = ⟨(2500000000 : Int).toNat / 1000000⟩ :=
  ⟨(c10_from_system_time (-7)).1 (by norm_num),
    (c10_from_system_time 2500000000).2 (by norm_num)⟩

/-- C6: the responder parses `ask1` into its encryption triple and `ask0`
into its decryption triple as three little-endian u64s each; the
initiator uses the role-swapped assignment; hence the two sides obtain
matching SipHash key triples with encrypt/decrypt roles swapped. -/
theorem c6_siphash_role_swap (ask0 ask1 : List Nat) :
    deriveSipKeysResponder ask0 ask1 =
        ⟨readU64LE ask1 0, readU64LE ask1 8, readU64LE ask1 16,
          readU64LE ask0 0, readU64LE ask0 8, readU64LE ask0 16⟩ ∧
      deriveSipKeysInitiator ask0 ask1 =
        ⟨readU64LE ask0 0, readU64LE ask0 8, readU64LE ask0 16,
          readU64LE ask1 0, readU64LE ask1 8, readU64LE ask1 16⟩ ∧
      (deriveSipKeysResponder ask0 ask1).ek0 = (deriveSipKeysInitiator ask0 ask1).dk0 ∧
      (deriveSipKeysResponder ask0 ask1).ek1 = (deriveSipKeysInitiator ask0 ask1).dk1 ∧
      (deriveSipKeysResponder ask0 ask1).eiv = (deriveSipKeysInitiator ask0 ask1).div ∧
      (deriveSipKeysResponder ask0 ask1).dk0 = (deriveSipKeysInitiator ask0 ask1).ek0 ∧
      (deriveSipKeysResponder ask0 ask1).dk1 = (deriveSipKeysInitiator ask0 ask1).ek1 ∧
      (deriveSipKeysResponder ask0 ask1).div = (deriveSipKeysInitiator ask0 ask1).eiv :=
  ⟨rfl, rfl, rfl, rfl, rfl, rfl, rfl, rfl⟩

/-- C8: the only mutator of the addresses/peers/options/published fields
in the source, `set_addresses`, clears the signature, and `verify` on the
result returns the `MissingSignature` error (`crypto::Error::NoSignature`)
for every verification backend. -/
theorem c8_set_addresses_clears_signature
    (verifyFn : RouterInfo → Signature → Bool) (ri : RouterInfo)
    (addrs : List RouterAddress) :
    (ri.set_addresses addrs).signature = none ∧
      (ri.set_addresses addrs).verify verifyFn = .error .NoSignature :=
  ⟨rfl, rfl⟩

/-- C5: a SessionRequest whose plaintext version field is not 2 makes the
responder fail with `UnsupportedVersion`; the error return means the
writing state (`SessionCreated`) is never reached, so no bytes are
written. -/
theorem c5_version_mismatch (pt : List Nat) (v p m ts : Nat)
    (hparse : session_request pt = some (v, p, m, ts)) (hv : v ≠ 2) :
    ibStepSessionRequest pt = .error .UnsupportedVersion := by
  simp [ibStepSessionRequest, hparse, hv]

/-- Witness for C5: a concrete 16-byte plaintext with version 3. -/
theorem c5_version_mismatch_witness :
    ibStepSessionRequest
        [3, 0, 0, 0, 0, 0, 0, 0, 0, 0, 0, 0, 0, 0, 0, 0] =
      .error .UnsupportedVersion :=
  c5_version_mismatch _ 3 0 0 0 rfl (by decide)

/-- C1 counterexample: for the SessionConfirmed payload of length 100 the
initiator advertises message3_length = 116, but the responder's
`read_exact` is built for 116 + 48 = 164 bytes and the initiator's Noise
message-3 ciphertext is 164 bytes — not the advertised 116, refuting the
claim that the byte count read (and the ciphertext length written) equals
the advertised message3_length. -/
theorem c1_len_counterexample :
    obScLen 100 = 116 ∧
      ibReadLen (.sessionConfirmed 116) = some 164 ∧
      noiseMessage3CtLen 100 = 164 ∧
      ibReadLen (.sessionConfirmed 116) ≠ some 116 ∧
      noiseMessage3CtLen 100 ≠ obScLen 100 := by
  refine ⟨rfl, rfl, rfl, ?_, ?_⟩ <;> decide

/-- C1 (amended): for every SessionConfirmed payload, the responder reads
exactly message3_length + 48 bytes, and that is exactly the length of the
ciphertext the initiator writes; so the two sides agree, with a constant
offset of 48 from the advertised value. -/
theorem c1_session_confirmed_len (payloadLen : Nat) :
    ibReadLen (.sessionConfirmed (obScLen payloadLen)) =
        some (noiseMessage3CtLen payloadLen) ∧
      noiseMessage3CtLen payloadLen = obScLen payloadLen + 48 := by
  constructor
  · simp only [ibReadLen, obScLen, noiseMessage3CtLen, Option.some.injEq]
  · simp only [obScLen, noiseMessage3CtLen]

/-- C2 counterexample: a SessionRequest plaintext advertising
message3_length = 65535 > NTCP2_MTU − 16 parses fine and the responder
transitions to reading the padding — no `ParseError` or
`MessageTooLarge` is surfaced. -/
theorem c2_no_mtu_check_counterexample :
    session_request [2, 0, 255, 255, 0, 0, 0, 0, 0, 0, 0, 0, 0, 0, 0, 0] =
        some (2, 0, 65535, 0) ∧
      NTCP2_MTU - 16 < 65535 ∧
      ibStepSessionRequest [2, 0, 255, 255, 0, 0, 0, 0, 0, 0, 0, 0, 0, 0, 0, 0] =
        .ok (.sessionRequestPadding 0 65535) := by
  refine ⟨rfl, by decide, rfl⟩

/-- C2 (amended): the responder never checks the advertised
message3_length: every parseable SessionRequest plaintext with version 2
is accepted, whatever message3_length it advertises. -/
theorem c2_no_mtu_check (pt : List Nat) (p m ts : Nat)
    (hparse : session_request pt = some (2, p, m, ts)) :
    ibStepSessionRequest pt = .ok (.sessionRequestPadding p m) := by
  simp [ibStepSessionRequest, hparse]

/-- Witness for the amended C2 at a concrete plaintext advertising
message3_length = 65520. -/
theorem c2_no_mtu_check_witness :
    ibStepSessionRequest [2, 1, 255, 240, 0, 0, 0, 0, 0, 0, 0, 0, 0, 0, 0, 0] =
      .ok (.sessionRequestPadding 1 65520) :=
  c2_no_mtu_check _ 1 65520 0 rfl

/-- C3: evaluating `RouterInfo::address` on a RouterInfo holding one
address of the requested style whose host/port options are absent: the
`.addr().unwrap()` inside the filter chain panics (the outer `none`)
instead of returning the absent result (`some none`) the claim
describes. -/
theorem c3_address_unwrap_panics :
    RouterInfo.address parseIpv4
        { router_id := ⟨[], none, [], .Null⟩
          published := ⟨0⟩
          addresses := [⟨0, ⟨0⟩, "test", ⟨[]⟩⟩]
          peers := []
          options := ⟨[]⟩
          signature := none }
        "test" (fun _ => true) = none ∧
      (none : Option (Option RouterAddress)) ≠ some none := by
  exact ⟨rfl, by decide⟩

/-- C4 counterexample: the unrecognized certificate type code 6 makes the
frame parser fail as malformed, and `Certificate::from` then panics
(`panic!("Unsupported Certificate")`, the outer `none`) instead of
returning a `ParseError` value. -/
theorem c4_cert_counterexample :
    certificate [6, 0, 0] = .failed ∧
      Certificate.fromBuf [6, 0, 0] = none := by
  exact ⟨rfl, rfl⟩

/-- C4 (amended): `Certificate::from` keeps incomplete input distinct and
retryable — it is surfaced as a returned `None` — while unrecognized type
codes or structurally malformed bytes cause a panic rather than a
returned `ParseError` value; a successful parse is returned as
`Some(cert)`. -/
theorem c4_cert_outcomes (buf : List Nat) :
    (Certificate.fromBuf buf = none ↔ certificate buf = .failed) ∧
      (Certificate.fromBuf buf = some none ↔ certificate buf = .incomplete) ∧
      (∀ c, Certificate.fromBuf buf = some (some c) ↔ certificate buf = .done c) := by
  unfold Certificate.fromBuf
  cases h : certificate buf <;> simp

/-- Witness for the amended C4: a concrete Null certificate parses and is
returned as a value. -/
theorem c4_cert_outcomes_witness :
    Certificate.fromBuf [0, 0, 0] = some (some .Null) :=
  ((c4_cert_outcomes [0, 0, 0]).2.2 Certificate.Null).mpr rfl

theorem mem_of_head?_filter {α : Type} {p : α → Bool} {l : List α} {a : α}
    (h : (l.filter p).head? = some a) : a ∈ l ∧ p a = true := by
  obtain ⟨ys, hys⟩ := List.head?_eq_some_iff.mp h
  have hm : a ∈ l.filter p := by
    rw [hys]
    exact List.mem_cons_self _ _
  exact List.mem_filter.mp hm

theorem goodAddress_true {parseIp : String → Option IpAddr} {style : String}
    {f : RouterAddress → Bool} {a : RouterAddress}
    (h : goodAddress parseIp style f a = true) :
    a.transport_style = style ∧ f a = true := by
  simp only [goodAddress, Bool.and_eq_true, beq_iff_eq] at h
  exact ⟨h.1.1, h.2⟩

/-- C7: outbound handshake setup selects an address with transport style
"NTCP2" (falling back to "NTCP"), whose "v" csv contains "2" and which
has both "s" and "i" options (the `ntcp2Filter` conditions); if no
address of either style satisfies the selection conditions,
`OBHandshake::new` fails `NoNtcp2Address` — and `new` performs no I/O, so
no bytes have been written.  The hypothesis `hnp` excludes the
`.addr().unwrap()` panic on style-matching addresses whose host/port do
not parse (see C3). -/
theorem c7_outbound_address_selection (parseIp : String → Option IpAddr)
    (decodeB64 : String → Option (List Nat)) (ownRiLen scPadlen : Nat)
    (peer : RouterInfo)
    (hnp : ∀ a ∈ peer.addresses,
      (a.transport_style = NTCP2_STYLE ∨ a.transport_style = NTCP_STYLE) →
        (a.addr parseIp).isSome) :
    ((∀ a ∈ peer.addresses,
        goodAddress parseIp NTCP2_STYLE ntcp2Filter a = false ∧
          goodAddress parseIp NTCP_STYLE ntcp2Filter a = false) →
      obHandshakeNew parseIp decodeB64 ownRiLen scPadlen peer =
        .error .NoNtcp2Address) ∧
      (∀ ra, selectNtcp2Address parseIp peer = some (some ra) →
        (ra.transport_style = NTCP2_STYLE ∨ ra.transport_style = NTCP_STYLE) ∧
          ntcp2Filter ra = true) := by
  have hnp2 : ∀ a ∈ peer.addresses,
      a.transport_style = NTCP2_STYLE → (a.addr parseIp).isSome :=
    fun a ha h => hnp a ha (.inl h)
  have hnp1 : ∀ a ∈ peer.addresses,
      a.transport_style = NTCP_STYLE → (a.addr parseIp).isSome :=
    fun a ha h => hnp a ha (.inr h)
  have haddr2 := RouterInfo.address_eq_filter_head parseIp peer NTCP2_STYLE ntcp2Filter hnp2
  have haddr1 := RouterInfo.address_eq_filter_head parseIp peer NTCP_STYLE ntcp2Filter hnp1
  constructor
  · intro hng
    have hf2 : peer.addresses.filter (goodAddress parseIp NTCP2_STYLE ntcp2Filter) = [] :=
      List.filter_eq_nil_iff.mpr (fun a ha => by simp [(hng a ha).1])
    have hf1 : peer.addresses.filter (goodAddress parseIp NTCP_STYLE ntcp2Filter) = [] :=
      List.filter_eq_nil_iff.mpr (fun a ha => by simp [(hng a ha).2])
    have hsel : selectNtcp2Address parseIp peer = some none := by
      simp [selectNtcp2Address, haddr2, haddr1, hf2, hf1]
    simp [obHandshakeNew, hsel]
  · intro ra hra
    cases hh2 : (peer.addresses.filter (goodAddress parseIp NTCP2_STYLE ntcp2Filter)).head? with
    | some rb =>
      have hsel : selectNtcp2Address parseIp peer = some (some rb) := by
        simp [selectNtcp2Address, haddr2, hh2]
      rw [hsel] at hra
      obtain rfl : rb = ra := by
        simpa using hra
      have hgood := (mem_of_head?_filter hh2).2
      have := goodAddress_true hgood
      exact ⟨.inl this.1, this.2⟩
    | none =>
      have hsel : selectNtcp2Address parseIp peer =
          some (peer.addresses.filter (goodAddress parseIp NTCP_STYLE ntcp2Filter)).head? := by
        simp [selectNtcp2Address, haddr2, hh2, haddr1]
      rw [hsel] at hra
      have hh1 : (peer.addresses.filter (goodAddress parseIp NTCP_STYLE ntcp2Filter)).head? =
          some ra := by
        simpa using hra
      have hgood := (mem_of_head?_filter hh1).2
      have := goodAddress_true hgood
      exact ⟨.inr this.1, this.2⟩

/-- Witness for C7 at a RouterInfo with no addresses: `OBHandshake::new`
fails `NoNtcp2Address`. -/
theorem c7_outbound_address_selection_witness :
    obHandshakeNew parseIpv4 (fun _ => none) 100 5
        ⟨⟨[], none, [], .Null⟩, ⟨0⟩, [], [], ⟨[]⟩, none⟩ =
      .error .NoNtcp2Address :=
  (c7_outbound_address_selection parseIpv4 (fun _ => none) 100 5
      ⟨⟨[], none, [], .Null⟩, ⟨0⟩, [], [], ⟨[]⟩, none⟩
      (fun a ha _ => absurd ha (List.not_mem_nil a))).1
    (fun a ha => absurd ha (List.not_mem_nil a))

end Ire
